import Mathlib

/-!
Verification of the mcp-client-x repository: a FastMCP server exposing two
tools (src/server/example_server.py) and a stdio client with an OpenAI-backed
sampling callback (src/client/mcp_client.py).  Machine floats are modelled by
rationals; effects (HTTP, the completion API) are modelled by explicit
function parameters and request traces.
-/

namespace MCPx

/-- Shallow embedding of calculate_bmi (src/server/example_server.py, lines
7-10): returns weight_kg / height_m ** 2.  Python raises ZeroDivisionError
when the divisor height_m ** 2 is zero; that failure is modelled as none. -/
def calculate_bmi (weight_kg height_m : ℚ) : Option ℚ :=
  if height_m ^ 2 = 0 then none else some (weight_kg / height_m ^ 2)

/-- A network-level failure of the HTTP client, as an opaque message. -/
structure NetError where
  message : String
deriving DecidableEq

/-- The URL built by fetch_weather (src/server/example_server.py, lines
15-19) by f-string templating of the two coordinates (given here already
rendered as strings). -/
def weatherURL (latitude longitude : String) : String :=
  "https://api.open-meteo.com/v1/forecast?" ++
    "latitude=" ++ latitude ++ "&longitude=" ++ longitude ++
    "&current_weather=true&" ++
    "hourly=temperature_2m,relative_humidity_2m,wind_speed_10m"

/-- Shallow embedding of fetch_weather (src/server/example_server.py, lines
12-22).  The HTTP client is the parameter get; the first component is the
trace of GET requests issued, the second the returned value: the response
body text on success, and the propagated error on network failure (the
Python code has no try/except, so an httpx error escapes to the caller). -/
def fetch_weather (latitude longitude : String)
    (get : String → Except NetError String) :
    List String × Except NetError String :=
  let url := weatherURL latitude longitude
  ([url], get url)

/-- One content item of an incoming sampling message, as the client code
reads it: a type tag (the code keeps only items whose tag is "text") and the
item text. -/
structure ContentItem where
  type : String
  text : String
deriving DecidableEq

/-- One message of a sampling request (message.messages in
handle_openai_sampling); the code iterates over last_message.content. -/
structure SamplingMessage where
  role : String
  content : List ContentItem
deriving DecidableEq

/-- One role/content pair of the outgoing chat.completions.create request. -/
structure ChatMessage where
  role : String
  content : String
deriving DecidableEq

/-- The value handle_openai_sampling returns (types.CreateMessageResult with
a TextContent payload, flattened to its text). -/
structure CreateMessageResult where
  role : String
  text : String
  model : String
  stopReason : String
deriving DecidableEq

/-- The loop of handle_openai_sampling (src/client/mcp_client.py, lines
55-57): concatenate the text of every content item whose type tag is
"text". -/
def concatTextItems (content : List ContentItem) : String :=
  content.foldl (fun acc c => if c.type = "text" then acc ++ c.text else acc) ""

/-- Extraction before the fallback (lines 50-57): the concatenated text of
the last message, or "" when the messages list is empty. -/
def rawUserContent (messages : List SamplingMessage) : String :=
  match messages.getLast? with
  | none => ""
  | some m => concatTextItems m.content

/-- Extraction with the fallback of lines 59-61: an empty extraction is
replaced by the literal default message. -/
def extractUserContent (messages : List SamplingMessage) : String :=
  let raw := rawUserContent messages
  if raw = "" then "Hello, please assist me." else raw

/-- The messages list the callback passes to
openai_client.chat.completions.create (lines 66-72): a fixed system turn
plus one user turn holding the extracted content. -/
def sentMessages (messages : List SamplingMessage) : List ChatMessage :=
  [⟨"system", "You are a helpful assistant."⟩,
    ⟨"user", extractUserContent messages⟩]

/-- The observable outcome of one callback invocation: the completion
requests issued, the lines printed, and the returned result. -/
structure SamplingOutcome where
  requests : List (List ChatMessage)
  logs : List String
  result : CreateMessageResult
deriving DecidableEq

/-- Shallow embedding of handle_openai_sampling (src/client/mcp_client.py,
lines 47-96).  The completion API is the parameter complete; its failure
(the raised exception caught on line 86) is the error branch, producing the
in-band error result of lines 88-96 instead of propagating. -/
def handle_openai_sampling (messages : List SamplingMessage)
    (complete : List ChatMessage → Except String String) : SamplingOutcome :=
  match complete (sentMessages messages) with
  | Except.ok ai_text =>
      { requests := [sentMessages messages]
        logs := ["Sending to OpenAI: " ++ extractUserContent messages]
        result := ⟨"assistant", ai_text, "gpt-3.5-turbo", "endTurn"⟩ }
  | Except.error e =>
      { requests := [sentMessages messages]
        logs := ["Sending to OpenAI: " ++ extractUserContent messages,
                 "Error in OpenAI sampling: " ++ e]
        result := ⟨"assistant", "I encountered an error: " ++ e,
                   "gpt-3.5-turbo", "error"⟩ }

/-- C1: for positive w and h, calculate_bmi returns exactly w / h ** 2, and
height 0 fails (none, modelling the raised ZeroDivisionError) instead of
silently returning infinity. -/
theorem calculate_bmi_correct (w h : ℚ) (_hw : 0 < w) (hh : 0 < h) :
    calculate_bmi w h = some (w / h ^ 2) ∧
      ∀ w2 : ℚ, calculate_bmi w2 0 = none := by
  refine ⟨?_, ?_⟩
  · unfold calculate_bmi
    rw [if_neg (pow_ne_zero 2 (ne_of_gt hh))]
  · intro w2
    simp [calculate_bmi]

/-- Witness for C1 at the client demo input weight 70 kg, height 1.75 m. -/
theorem calculate_bmi_correct_witness :
    calculate_bmi 70 (7 / 4) = some (70 / (7 / 4) ^ 2) ∧
      ∀ w2 : ℚ, calculate_bmi w2 0 = none :=
  calculate_bmi_correct 70 (7 / 4) (by norm_num) (by norm_num)

/-- C2: fetch_weather issues exactly one GET, to the fixed open-meteo URL
templated with the two coordinates; a success body is returned verbatim and
a network failure propagates unchanged to the caller. -/
theorem fetch_weather_spec (lat lon : String)
    (get : String → Except NetError String) :
    (fetch_weather lat lon get).1 = [weatherURL lat lon] ∧
      (∀ body, get (weatherURL lat lon) = Except.ok body →
        (fetch_weather lat lon get).2 = Except.ok body) ∧
      (∀ e, get (weatherURL lat lon) = Except.error e →
        (fetch_weather lat lon get).2 = Except.error e) := by
  refine ⟨rfl, ?_, ?_⟩
  · intro body hbody
    simpa [fetch_weather] using hbody
  · intro e he
    simpa [fetch_weather] using he

/-- Witness for C2 at the client demo coordinates with an HTTP client that
echoes the requested URL as the body. -/
theorem fetch_weather_spec_witness :
    (fetch_weather "52.07" "-1.014" (fun u => Except.ok u)).1 =
        [weatherURL "52.07" "-1.014"] ∧
      (fetch_weather "52.07" "-1.014" (fun u => Except.ok u)).2 =
        Except.ok (weatherURL "52.07" "-1.014") :=
  ⟨(fetch_weather_spec "52.07" "-1.014" (fun u => Except.ok u)).1,
    (fetch_weather_spec "52.07" "-1.014" (fun u => Except.ok u)).2.1
      (weatherURL "52.07" "-1.014") rfl⟩

/-- Helper: when no content item of the last message carries the "text" type
tag, the concatenation loop of handle_openai_sampling produces the empty
string. -/
theorem concatTextItems_no_text :
    ∀ content : List ContentItem, (∀ c ∈ content, c.type ≠ "text") →
      concatTextItems content = "" := by
  intro content
  induction content with
  | nil => intro _; rfl
  | cons c cs ih =>
      intro h
      have hc : ¬ c.type = "text" := h c (List.mem_cons_self c cs)
      simp only [concatTextItems, List.foldl_cons, if_neg hc] at *
      exact ih fun x hx => h x (List.mem_cons_of_mem c hx)

/-- C3 counterexample: with two text-bearing messages in the sampling
request, the completion request holds only a fixed system turn and the last
message's text; the earlier turn "first question" is absent, so the full
transcript is not sent. -/
theorem sampling_not_full_transcript :
    sentMessages
        [⟨"user", [⟨"text", "first question"⟩]⟩,
         ⟨"user", [⟨"text", "second question"⟩]⟩] =
      [⟨"system", "You are a helpful assistant."⟩,
       ⟨"user", "second question"⟩] ∧
    ∀ cm ∈ sentMessages
        [⟨"user", [⟨"text", "first question"⟩]⟩,
         ⟨"user", [⟨"text", "second question"⟩]⟩],
      cm.content ≠ "first question" := by
  decide

/-- C3 amended: on every completion request the callback sends exactly one
request of two messages, a fixed system prompt plus a single user turn
holding the extracted text of the last sampling message, and its whole
behaviour depends only on that last message (earlier turns are trimmed
away). -/
theorem sampling_sends_last_message_only (messages : List SamplingMessage)
    (complete : List ChatMessage → Except String String) :
    (handle_openai_sampling messages complete).requests =
        [[⟨"system", "You are a helpful assistant."⟩,
          ⟨"user", extractUserContent messages⟩]] ∧
      ∀ messages2 : List SamplingMessage,
        messages2.getLast? = messages.getLast? →
        handle_openai_sampling messages2 complete =
          handle_openai_sampling messages complete := by
  constructor
  · unfold handle_openai_sampling
    cases complete (sentMessages messages) <;> rfl
  · intro messages2 h
    have hraw : rawUserContent messages2 = rawUserContent messages := by
      unfold rawUserContent
      rw [h]
    have hextract : extractUserContent messages2 = extractUserContent messages := by
      unfold extractUserContent
      rw [hraw]
    have hsent : sentMessages messages2 = sentMessages messages := by
      unfold sentMessages
      rw [hextract]
    unfold handle_openai_sampling
    rw [hsent, hextract]

/-- Witness for C3's amended theorem: prepending an earlier turn leaves the
callback's outcome unchanged, and the request shape is as stated. -/
theorem sampling_sends_last_message_only_witness :
    (handle_openai_sampling [⟨"user", [⟨"text", "hello"⟩]⟩]
        (fun _ => Except.ok "hi")).requests =
        [[⟨"system", "You are a helpful assistant."⟩,
          ⟨"user", extractUserContent [⟨"user", [⟨"text", "hello"⟩]⟩]⟩]] ∧
      handle_openai_sampling
          [⟨"user", [⟨"text", "ignored"⟩]⟩, ⟨"user", [⟨"text", "hello"⟩]⟩]
          (fun _ => Except.ok "hi") =
        handle_openai_sampling [⟨"user", [⟨"text", "hello"⟩]⟩]
          (fun _ => Except.ok "hi") :=
  ⟨(sampling_sends_last_message_only [⟨"user", [⟨"text", "hello"⟩]⟩]
      (fun _ => Except.ok "hi")).1,
   (sampling_sends_last_message_only [⟨"user", [⟨"text", "hello"⟩]⟩]
      (fun _ => Except.ok "hi")).2
     [⟨"user", [⟨"text", "ignored"⟩]⟩, ⟨"user", [⟨"text", "hello"⟩]⟩]
     (by decide)⟩

/-- C8: a failure of the completion call is caught inside the callback: the
returned result is the in-band generic error text with stopReason "error"
(no exception escapes, since the embedding is a total function), and the
failure is logged. -/
theorem sampling_error_caught (messages : List SamplingMessage)
    (complete : List ChatMessage → Except String String) (e : String)
    (h : complete (sentMessages messages) = Except.error e) :
    (handle_openai_sampling messages complete).result =
        ⟨"assistant", "I encountered an error: " ++ e,
          "gpt-3.5-turbo", "error"⟩ ∧
      "Error in OpenAI sampling: " ++ e ∈
        (handle_openai_sampling messages complete).logs := by
  unfold handle_openai_sampling
  rw [h]
  exact ⟨rfl, by simp⟩

/-- Witness for C8 with a completion stub that always fails. -/
theorem sampling_error_caught_witness :
    (handle_openai_sampling [] (fun _ => Except.error "boom")).result =
        ⟨"assistant", "I encountered an error: " ++ "boom",
          "gpt-3.5-turbo", "error"⟩ ∧
      "Error in OpenAI sampling: " ++ "boom" ∈
        (handle_openai_sampling [] (fun _ => Except.error "boom")).logs :=
  sampling_error_caught [] (fun _ => Except.error "boom") "boom" rfl

/-- C10: whenever no text can be extracted (empty messages list, no "text"
content item in the last message, or empty concatenated text) the callback
substitutes the literal default, and the completion request never carries an
empty content field. -/
theorem extract_user_content_fallback (messages : List SamplingMessage) :
    extractUserContent messages ≠ "" ∧
      (messages = [] →
        extractUserContent messages = "Hello, please assist me.") ∧
      (∀ m, messages.getLast? = some m →
        (∀ c ∈ m.content, c.type ≠ "text") →
        extractUserContent messages = "Hello, please assist me.") ∧
      (rawUserContent messages = "" →
        extractUserContent messages = "Hello, please assist me.") ∧
      ∀ cm ∈ sentMessages messages, cm.content ≠ "" := by
  have hfall : rawUserContent messages = "" →
      extractUserContent messages = "Hello, please assist me." := by
    intro h
    unfold extractUserContent
    rw [h]
    rfl
  have hne : extractUserContent messages ≠ "" := by
    unfold extractUserContent
    by_cases h : rawUserContent messages = ""
    · rw [if_pos h]
      decide
    · rw [if_neg h]
      exact h
  refine ⟨hne, ?_, ?_, hfall, ?_⟩
  · intro h
    apply hfall
    rw [h]
    rfl
  · intro m hm hno
    apply hfall
    unfold rawUserContent
    rw [hm]
    exact concatTextItems_no_text m.content hno
  · intro cm hcm
    simp only [sentMessages, List.mem_cons, List.mem_singleton,
      List.not_mem_nil, or_false] at hcm
    rcases hcm with h | h
    · rw [h]
      decide
    · rw [h]
      exact hne

/-- Witness for C10: a last message whose only content item is not of type
"text" yields the literal default message. -/
theorem extract_user_content_fallback_witness :
    extractUserContent [⟨"user", [⟨"image", "ignored"⟩]⟩] =
      "Hello, please assist me." :=
  (extract_user_content_fallback [⟨"user", [⟨"image", "ignored"⟩]⟩]).2.2.1
    ⟨"user", [⟨"image", "ignored"⟩]⟩ (by decide) (by decide)

/-- Whether needle occurs as a contiguous run at the start of hay. -/
def listStartsWith : List Char → List Char → Bool
  | [], _ => true
  | _ :: _, [] => false
  | a :: as, b :: bs => a = b && listStartsWith as bs

/-- Whether needle occurs contiguously anywhere in hay, the semantics of the
Python membership test on strings. -/
def containsSeq (needle : List Char) : List Char → Bool
  | [] => needle.isEmpty
  | c :: cs => listStartsWith needle (c :: cs) || containsSeq needle cs

/-- Substring test on strings. -/
def isSubstringOf (needle hay : String) : Bool :=
  containsSeq needle.data hay.data

/-- Lower-casing as the Python lower() call, character by character. -/
def lowerString (s : String) : String :=
  ⟨s.data.map Char.toLower⟩

/-- Modelled from the spec: a Local Function Entry of the Command Router
(spec section 3) — keyword set, target tool name and ordered interactive
prompts.  The Command Router is absent from src/ (the client there is a
scripted demo), so this component and the three that follow are taken from
the spec text. -/
structure LocalEntry where
  keywords : List String
  toolName : String
  prompts : List String
deriving DecidableEq

/-- Modelled from the spec: an entry matches when some registered keyword is
a substring of the lower-cased user input (spec section 4.3). -/
def matchesEntry (input : String) (e : LocalEntry) : Bool :=
  e.keywords.any fun k => isSubstringOf k (lowerString input)

/-- Modelled from the spec: the Command Router scans the static table in
order, first matching entry wins; none selects the remote-completion
fallback (spec section 4.3). -/
def routeInput (table : List LocalEntry) (input : String) : Option LocalEntry :=
  table.find? (matchesEntry input)

/-- Modelled from the spec: the BMI entry of the Local Function table (its
keywords are not fixed by the spec; "bmi" is used). -/
def bmiEntry : LocalEntry :=
  ⟨["bmi"], "calculate_bmi", ["Enter weight in kg:", "Enter height in m:"]⟩

/-- Modelled from the spec: the weather entry, keyed by "weather" and
"forecast" (spec section 8). -/
def weatherEntry : LocalEntry :=
  ⟨["weather", "forecast"], "fetch_weather",
    ["Enter latitude:", "Enter longitude:"]⟩

/-- Modelled from the spec: the static Local Function table. -/
def localFunctionTable : List LocalEntry := [bmiEntry, weatherEntry]

/-- C4: the router sends input to the remote fallback exactly when no
registered keyword of any entry is a substring of the lower-cased input, and
a local route goes to an entry that matches and is preceded in table
iteration order only by non-matching entries (first match wins). -/
theorem routeInput_first_match (table : List LocalEntry) (input : String) :
    (routeInput table input = none ↔
        ∀ e ∈ table, matchesEntry input e = false) ∧
      ∀ e, routeInput table input = some e →
        matchesEntry input e = true ∧
        ∃ i : Fin table.length, table.get i = e ∧
          ∀ j : Fin table.length, (j : ℕ) < (i : ℕ) →
            matchesEntry input (table.get j) = false := by
  constructor
  · simp [routeInput, List.find?_eq_none]
  · intro e
    induction table with
    | nil =>
        intro h
        simp [routeInput] at h
    | cons a as ih =>
        intro h
        by_cases hpa : matchesEntry input a = true
        · have hae : a = e := by
            have := List.find?_cons_of_pos (l := as) hpa
            rw [routeInput, this] at h
            exact Option.some.inj h
          subst hae
          exact ⟨hpa, ⟨0, Nat.succ_pos _⟩, rfl, fun j hj => absurd hj (Nat.not_lt_zero _)⟩
        · have h' : routeInput as input = some e := by
            have := List.find?_cons_of_neg (l := as) hpa
            rw [routeInput, this] at h
            exact h
          obtain ⟨hme, i, hget, hbefore⟩ := ih h'
          refine ⟨hme, ⟨i.1 + 1, Nat.succ_lt_succ i.2⟩, hget, ?_⟩
          intro j hj
          match j with
          | ⟨0, _⟩ =>
              simpa using hpa
          | ⟨k + 1, hk⟩ =>
              exact hbefore ⟨k, Nat.lt_of_succ_lt_succ hk⟩
                (Nat.lt_of_succ_lt_succ hj)

/-- Witness for C4: keyword-free input routes to remote fallback, and input
containing "Weather" (case-insensitively) routes to the weather entry, which
indeed matches. -/
theorem routeInput_first_match_witness :
    routeInput localFunctionTable "Tell me a story" = none ∧
      matchesEntry "What is the Weather today?" weatherEntry = true :=
  ⟨(routeInput_first_match localFunctionTable "Tell me a story").1.mpr
      (by decide),
    ((routeInput_first_match localFunctionTable
        "What is the Weather today?").2 weatherEntry (by decide)).1⟩

/-- Modelled from the spec: the JSON values the weather response-formatter
re-parses (spec section 4.3; the formatter itself is absent from src/).
Numeric literals keep their source text, which fixes the rendering the spec
demands for the one observable case. -/
inductive Json where
  | str (s : String)
  | num (lit : String)
  | bool (b : Bool)
  | null
  | arr (elems : List Json)
  | obj (fields : List (String × Json))

/-- The opening-brace character. -/
def braceOpen : Char := Char.ofNat 123

/-- The closing-brace character. -/
def braceClose : Char := Char.ofNat 125

/-- JSON whitespace. -/
def isJsonWs (c : Char) : Bool :=
  c = ' ' || c = '\n' || c = '\t' || c = '\r'

/-- Drop leading JSON whitespace. -/
def skipWs : List Char → List Char
  | [] => []
  | c :: cs => if isJsonWs c then skipWs cs else c :: cs

/-- Translate the character after a backslash in a string literal. -/
def unescapeChar (c : Char) : Char :=
  if c = 'n' then '\n' else if c = 't' then '\t' else c

/-- Read a JSON string literal after its opening quote, returning its
characters and the rest of the input past the closing quote. -/
def parseStringChars : List Char → Option (List Char × List Char)
  | [] => none
  | c :: cs =>
    if c = '"' then some ([], cs)
    else if c = '\\' then
      match cs with
      | [] => none
      | d :: ds =>
        match parseStringChars ds with
        | none => none
        | some (s, rest) => some (unescapeChar d :: s, rest)
    else
      match parseStringChars cs with
      | none => none
      | some (s, rest) => some (c :: s, rest)

/-- Characters that may continue a numeric literal.  The model is slightly
more lenient than a strict JSON number grammar; bodies it rejects are a
subset of those the Python json module rejects only in exotic cases that no
claim touches. -/
def isNumChar (c : Char) : Bool :=
  c.isDigit || c = '-' || c = '+' || c = '.' || c = 'e' || c = 'E'

mutual

/-- Fuel-indexed parser for one JSON value; returns the value and the
remaining input. -/
def parseValue : Nat → List Char → Option (Json × List Char)
  | 0, _ => none
  | fuel + 1, input =>
    match skipWs input with
    | [] => none
    | c :: cs =>
      if c = '"' then
        match parseStringChars cs with
        | none => none
        | some (s, rest) => some (Json.str (String.mk s), rest)
      else if c = braceOpen then
        parseObjFields fuel cs []
      else if c = '[' then
        parseArrElems fuel cs []
      else if c = 't' then
        match cs with
        | 'r' :: 'u' :: 'e' :: rest => some (Json.bool true, rest)
        | _ => none
      else if c = 'f' then
        match cs with
        | 'a' :: 'l' :: 's' :: 'e' :: rest => some (Json.bool false, rest)
        | _ => none
      else if c = 'n' then
        match cs with
        | 'u' :: 'l' :: 'l' :: rest => some (Json.null, rest)
        | _ => none
      else if c.isDigit || c = '-' then
        some (Json.num (String.mk ((c :: cs).takeWhile isNumChar)),
          (c :: cs).dropWhile isNumChar)
      else none

/-- Parse the fields of an object after its opening brace; acc holds the
fields read so far. -/
def parseObjFields : Nat → List Char → List (String × Json) →
    Option (Json × List Char)
  | 0, _, _ => none
  | fuel + 1, input, acc =>
    match skipWs input with
    | [] => none
    | c :: cs =>
      if c = braceClose then
        if acc.isEmpty then some (Json.obj [], cs) else none
      else if c = '"' then
        match parseStringChars cs with
        | none => none
        | some (key, afterKey) =>
          match skipWs afterKey with
          | ':' :: afterColon =>
            match parseValue fuel afterColon with
            | none => none
            | some (v, afterVal) =>
              match skipWs afterVal with
              | [] => none
              | d :: rest =>
                if d = ',' then
                  parseObjFields fuel rest (acc ++ [(String.mk key, v)])
                else if d = braceClose then
                  some (Json.obj (acc ++ [(String.mk key, v)]), rest)
                else none
          | _ => none
      else none

/-- Parse the elements of an array after its opening bracket. -/
def parseArrElems : Nat → List Char → List Json → Option (Json × List Char)
  | 0, _, _ => none
  | fuel + 1, input, acc =>
    match skipWs input with
    | [] => none
    | c :: cs =>
      if c = ']' then
        if acc.isEmpty then some (Json.arr [], cs) else none
      else
        match parseValue fuel (c :: cs) with
        | none => none
        | some (v, afterVal) =>
          match skipWs afterVal with
          | ',' :: rest => parseArrElems fuel rest (acc ++ [v])
          | ']' :: rest => some (Json.arr (acc ++ [v]), rest)
          | _ => none

end

/-- Modelled from the spec: parse a whole response body; trailing
non-whitespace makes the body malformed, as does any parse failure. -/
def parseJson (body : String) : Option Json :=
  match parseValue (2 * body.data.length + 2) body.data with
  | none => none
  | some (j, rest) => if skipWs rest = [] then some j else none

/-- Look a key up among an object's fields; none on any other shape. -/
def getField (key : String) : Json → Option Json
  | Json.obj fields =>
    match fields.find? (fun kv => kv.1 == key) with
    | some kv => some kv.2
    | none => none
  | _ => none

/-- Modelled from the spec: the weather response-formatter (spec sections
4.3 and 8): re-parse the body, pull current_weather.temperature, append the
degree suffix; a body that fails to parse (the empty body included) yields
the literal error string.  A parse success of unexpected shape is
unspecified by the spec (section 9); the model falls through to the same
literal, which no claim relies on. -/
def formatWeather (body : String) : String :=
  match ((parseJson body).bind (getField "current_weather")).bind
      (getField "temperature") with
  | some (Json.num lit) => lit ++ "°C"
  | _ => "Error: No response from API"

/-- A conversation role (spec section 3). -/
inductive Role where
  | system
  | user
  | assistant
deriving DecidableEq

/-- One turn of the Conversation Transcript (spec section 3). -/
structure Turn where
  role : Role
  text : String
deriving DecidableEq

/-- Modelled from the spec: one completed exchange of the client loop
(spec section 4.3) — a local weather-tool call carrying the raw user input
and the raw response body, or a remote completion carrying the input and the
generated reply. -/
inductive Exchange where
  | localTool (input : String) (body : String)
  | remote (input : String) (reply : String)
deriving DecidableEq

/-- Modelled from the spec: the two turns an exchange appends — the raw user
input, then the formatted response (local path) or the returned text
(remote path). -/
def exchangeTurns : Exchange → List Turn
  | Exchange.localTool input body =>
      [⟨Role.user, input⟩, ⟨Role.assistant, formatWeather body⟩]
  | Exchange.remote input reply =>
      [⟨Role.user, input⟩, ⟨Role.assistant, reply⟩]

/-- Modelled from the spec: the transcript starts with one system turn
(spec section 8; the text is the fixed system prompt the client code
uses). -/
def initialTranscript : List Turn :=
  [⟨Role.system, "You are a helpful assistant."⟩]

/-- Modelled from the spec: the transcript accumulated after a sequence of
completed exchanges, each appending its two turns. -/
def runTranscript (exchanges : List Exchange) : List Turn :=
  exchanges.foldl (fun t e => t ++ exchangeTurns e) initialTranscript

/-- Helper: the fold that builds the transcript appends the per-exchange
turn pairs after the initial segment. -/
theorem runTranscript_eq_append :
    ∀ (es : List Exchange) (init : List Turn),
      es.foldl (fun t e => t ++ exchangeTurns e) init =
        init ++ (es.map exchangeTurns).flatten := by
  intro es
  induction es with
  | nil => intro init; simp
  | cons e es ih =>
      intro init
      simp only [List.foldl_cons, List.map_cons, List.flatten_cons, ih,
        List.append_assoc]

/-- Helper: every exchange contributes exactly one user and one assistant
turn, in that order. -/
theorem exchangeTurns_pair (e : Exchange) :
    (exchangeTurns e).length = 2 ∧
      (exchangeTurns e).map Turn.role = [Role.user, Role.assistant] := by
  cases e <;> exact ⟨rfl, rfl⟩

/-- C5: the spec's concrete weather body renders to exactly the temperature
with the degree suffix. -/
theorem weather_format_example :
    formatWeather "\x7b\"current_weather\": \x7b\"temperature\": 18.3\x7d\x7d" =
      "18.3°C" := by
  rfl

/-- C6: a body that does not parse (the empty body included) formats to the
literal error string, and a local exchange carrying it still extends the
transcript in the normal form: the raw user input then the formatted error,
appended after the prior transcript. -/
theorem weather_error_format (body : String) (h : parseJson body = none) :
    formatWeather body = "Error: No response from API" ∧
      ∀ (exchanges : List Exchange) (input : String),
        runTranscript (exchanges ++ [Exchange.localTool input body]) =
          runTranscript exchanges ++
            [⟨Role.user, input⟩,
             ⟨Role.assistant, "Error: No response from API"⟩] := by
  have hfmt : formatWeather body = "Error: No response from API" := by
    unfold formatWeather
    rw [h]
    rfl
  refine ⟨hfmt, ?_⟩
  intro es input
  unfold runTranscript
  rw [List.foldl_append]
  simp [exchangeTurns, hfmt]

/-- Witness for C6 at the empty body. -/
theorem weather_error_format_witness :
    formatWeather "" = "Error: No response from API" ∧
      runTranscript [Exchange.localTool "weather please" ""] =
        runTranscript [] ++
          [⟨Role.user, "weather please"⟩,
           ⟨Role.assistant, "Error: No response from API"⟩] :=
  ⟨(weather_error_format "" rfl).1,
    (weather_error_format "" rfl).2 [] "weather please"⟩

/-- Helper: a list of exchanges mapped to the constant 2 sums to twice its
length. -/
theorem sum_map_two (es : List Exchange) :
    (es.map fun _ => 2).sum = 2 * es.length := by
  induction es with
  | nil => rfl
  | cons e es ih =>
      simp only [List.map_cons, List.sum_cons, List.length_cons, ih]
      ring

/-- C7: after any N completed exchanges, local or remote in any mix, the
transcript is the initial system turn followed by each exchange's
user/assistant pair in chronological order, hence exactly 1 + 2N entries,
and running further exchanges only ever appends. -/
theorem transcript_shape (exchanges : List Exchange) :
    runTranscript exchanges =
        initialTranscript ++ (exchanges.map exchangeTurns).flatten ∧
      (runTranscript exchanges).length = 1 + 2 * exchanges.length ∧
      ∀ more : List Exchange,
        ∃ t, runTranscript (exchanges ++ more) = runTranscript exchanges ++ t := by
  have hshape := runTranscript_eq_append exchanges initialTranscript
  refine ⟨hshape, ?_, ?_⟩
  · unfold runTranscript
    rw [runTranscript_eq_append exchanges initialTranscript,
      List.length_append, List.length_flatten]
    have hmap : (exchanges.map exchangeTurns).map List.length =
        exchanges.map (fun _ => 2) := by
      rw [List.map_map]
      exact List.map_congr_left fun e _ => (exchangeTurns_pair e).1
    rw [hmap, sum_map_two]
    rfl
  · intro more
    refine ⟨(more.map exchangeTurns).flatten, ?_⟩
    unfold runTranscript
    rw [List.foldl_append]
    exact runTranscript_eq_append more _

/-- Modelled from the spec on the raising side: a Session Bridge call on an
unsupported capability yields a capability-not-supported error (spec section
4.2; the bridge itself is external SDK code), given here as the Except
argument.  The handling below embeds the inner try/except of run() in
src/client/mcp_client.py, lines 183-190. -/
def getPromptAttempt (res : Except String String) : List String :=
  match res with
  | Except.ok p => ["Server prompt result: " ++ p]
  | Except.error e =>
      ["Server doesn\x27t support this prompt: " ++ e,
       "This is expected with the example server"]

/-- The trace of run() from the get_prompt attempt onward: the attempt's
lines, then the resource-listing step that follows unconditionally
(src/client/mcp_client.py, lines 196-198). -/
def runTail (res : Except String String) : List String :=
  getPromptAttempt res ++ ["Listing resources..."]

/-- C9: a capability-not-supported failure of the get_prompt call is treated
as non-fatal: it is caught per-call (the embedding stays total and produces
a trace), logged as an in-band message carrying the error, and the
resource-listing step that follows still executes whatever the call
returned. -/
theorem get_prompt_error_nonfatal (e : String) :
    runTail (Except.error e) =
        ["Server doesn\x27t support this prompt: " ++ e,
         "This is expected with the example server",
         "Listing resources..."] ∧
      ∀ res : Except String String, "Listing resources..." ∈ runTail res := by
  constructor
  · rfl
  · intro res
    cases res <;> simp [runTail, getPromptAttempt]

end MCPx
